import Mathlib

/-!
Verification of the Azure BYOK endpoint slice.

The embedding models the TypeScript sources
`src/extension/byok/common/azureUtils.ts`,
`src/extension/byok/node/azureOpenAIEndpoint.ts` and
`src/extension/byok/vscode-node/azureProvider.ts`.

Strings are modelled as `List Char`.  The JavaScript string operations used
by the source (`includes`, `endsWith`, `slice(0, -n)`, `toLowerCase`) are
embedded as the executable functions `containsB`, `endsWithB`, `dropRightB`
and `toLowerB` below.
-/

namespace Azure

/-- Auxiliary for `containsB` and `endsWithB`: the first list is a
character-exact prefix of the second. -/
def isPrefixOfB : List Char → List Char → Bool
  | [], _ => true
  | _ :: _, [] => false
  | a :: as, b :: bs => (a == b) && isPrefixOfB as bs

/-- JavaScript `hay.includes(pat)`: `pat` occurs as a contiguous substring
of `hay`. -/
def containsB : List Char → List Char → Bool
  | [], pat => isPrefixOfB pat []
  | c :: cs, pat => isPrefixOfB pat (c :: cs) || containsB cs pat

/-- JavaScript `s.endsWith(pat)`. -/
def endsWithB (s pat : List Char) : Bool := isPrefixOfB pat.reverse s.reverse

/-- JavaScript `s.slice(0, -n)`: drop the last `n` characters. -/
def dropRightB (s : List Char) (n : Nat) : List Char := s.take (s.length - n)

/-- JavaScript `s.toLowerCase()` restricted to the ASCII range exercised by
model ids and URLs. -/
def toLowerB (s : List Char) : List Char := s.map Char.toLower

/-! String constants appearing in `azureUtils.ts` and
`azureOpenAIEndpoint.ts`.  The template literals of the source are split at
concatenation points; `++` reassembles them verbatim. -/

def chatCompletionsMarker : List Char := "/chat/completions".data

def responsesMarker : List Char := "/responses".data

def slashC : List Char := ['/']

def v1Suffix : List Char := ['/', 'v', '1']

def modelsAiMarker : List Char := "models.ai.azure.com".data

def inferenceMlMarker : List Char := "inference.ml.azure.com".data

def openaiAzureMarker : List Char := "openai.azure.com".data

def v1ResponsesPath : List Char := "/v1/responses".data

def v1ChatCompletionsPath : List Char := "/v1/chat/completions".data

def openaiV1ResponsesPath : List Char := "/openai/v1/responses".data

def openaiDeploymentsPath : List Char := "/openai/deployments/".data

def apiVersionQuery : List Char := "?api-version=2025-04-01-preview".data

def unrecognizedUrlMsg : List Char := "Unrecognized Azure deployment URL: ".data

/-- Result of `resolveAzureUrl`: the source either returns a string or
throws an `Error` carrying a message. -/
inductive AzureResult where
  | ok (url : List Char)
  | err (msg : List Char)
  deriving DecidableEq

/-- Lines 12-19 of `azureUtils.ts`: remove one trailing slash, then a
trailing `/v1` segment from the (already slash-stripped) URL. -/
def canonicalBase (url : List Char) : List Char :=
  let url1 := if endsWithB url slashC then dropRightB url 1 else url
  if endsWithB url1 v1Suffix then dropRightB url1 3 else url1

/-- Lines 21-35 of `azureUtils.ts`: host classification and final URL
construction, applied to the trimmed URL. -/
def classifyBase (modelId url : List Char) (useResponsesAPI : Bool) : AzureResult :=
  if containsB url modelsAiMarker || containsB url inferenceMlMarker then
    if useResponsesAPI then .ok (url ++ v1ResponsesPath)
    else .ok (url ++ v1ChatCompletionsPath)
  else if containsB url openaiAzureMarker then
    if useResponsesAPI then .ok (url ++ openaiV1ResponsesPath ++ apiVersionQuery)
    else .ok (url ++ openaiDeploymentsPath ++ modelId ++ chatCompletionsMarker ++ apiVersionQuery)
  else .err (unrecognizedUrlMsg ++ url)

/-- `resolveAzureUrl` of `azureUtils.ts` (lines 6-36).  The guard returns an
already-resolved URL unchanged; otherwise the URL is trimmed
(`canonicalBase`) and classified (`classifyBase`). -/
def resolveAzureUrl (modelId url : List Char) (useResponsesAPI : Bool) : AzureResult :=
  if containsB url chatCompletionsMarker || containsB url responsesMarker then .ok url
  else classifyBase modelId (canonicalBase url) useResponsesAPI

def o1Tok : List Char := "o1".data

def o3Tok : List Char := "o3".data

def o4Tok : List Char := "o4".data

def codexMiniTok : List Char := "codex-mini".data

def gpt4oTok : List Char := "gpt-4o".data

def gpt41Tok : List Char := "gpt-4.1".data

/-- Token list of `shouldUseResponsesAPI` (`azureUtils.ts` lines 45-49). -/
def responsesAPIModels : List (List Char) :=
  ["o1".data, "o3".data, "o3-mini".data, "o4-mini".data, "codex-mini".data,
   "o3-pro".data, "gpt-4.1".data, "gpt-4.1-mini".data, "gpt-4.1-nano".data,
   "gpt-image-1".data, "computer-use-preview".data]

/-- `shouldUseResponsesAPI` of `azureUtils.ts` (lines 43-51):
`responsesAPIModels.some(model => modelId.toLowerCase().includes(model))`. -/
def shouldUseResponsesAPI (modelId : List Char) : Bool :=
  responsesAPIModels.any fun model => containsB (toLowerB modelId) model

/-- `isOSeriesModel` (identical in `azureOpenAIEndpoint.ts` line 66-68 and
`azureProvider.ts` line 45-47): the regex `/^(o1|o3|o4|codex-mini)/` tested
against the lower-cased model id, i.e. an anchored prefix test. -/
def isOSeriesModel (modelId : List Char) : Bool :=
  isPrefixOfB o1Tok (toLowerB modelId) || isPrefixOfB o3Tok (toLowerB modelId) ||
  isPrefixOfB o4Tok (toLowerB modelId) || isPrefixOfB codexMiniTok (toLowerB modelId)

/-! Request bodies.  `IEndpointBody` is an open JS object; the slice only
inspects `temperature` and `top_p`, carried here as optional rationals; all
remaining fields are carried opaquely in `rest` so that "touches no other
field" is expressible. -/

structure EndpointBody where
  temperature : Option ℚ
  top_p : Option ℚ
  rest : List (List Char × ℚ)
  deriving DecidableEq

/-- Azure-specific part of `AzureOpenAIEndpoint.interceptBody`
(`azureOpenAIEndpoint.ts` lines 79-101), i.e. what runs after
`super.interceptBody(body)`: for o-series models delete `temperature` when
present and delete `top_p` when present with a value other than 1.
`none` models a falsy `body`, on which the method does nothing. -/
def azureInterceptBody (model : List Char) (body : Option EndpointBody) : Option EndpointBody :=
  match body with
  | none => none
  | some b =>
    if isOSeriesModel model then
      let b1 := if b.temperature.isSome then { b with temperature := none } else b
      let b2 :=
        match b1.top_p with
        | some v => if v ≠ 1 then { b1 with top_p := none } else b1
        | none => b1
      some b2
    else some b

/-! Model capability records (`azureProvider.ts`).  The shape follows the
`baseInfo.capabilities` accesses of the source: a `supports` record updated
by spread (so unrelated flags must be preserved — `streaming` stands for
those) and a `limits` record that is wholly replaced for o-series models. -/

structure ModelSupports where
  tool_calls : Bool
  vision : Bool
  streaming : Bool
  deriving DecidableEq

structure ModelLimits where
  max_context_window_tokens : Nat
  max_prompt_tokens : Nat
  max_output_tokens : Nat
  deriving DecidableEq

structure ModelCapabilities where
  supports : ModelSupports
  limits : ModelLimits
  deriving DecidableEq

/-- Vision-model token list of `AzureBYOKModelRegistry.supportsVision`
(`azureProvider.ts` lines 59-64). -/
def visionModels : List (List Char) :=
  ["gpt-4o".data, "gpt-4.1".data, "gpt-image-1".data, "o1".data, "o3".data,
   "o4-mini".data, "codex-mini".data, "o3-pro".data]

/-- `supportsVision` of `azureProvider.ts` (lines 59-64). -/
def supportsVision (modelId : List Char) : Bool :=
  visionModels.any fun model => containsB (toLowerB modelId) model

/-- Capability-deriving part of `AzureBYOKModelRegistry.getModelInfo`
(`azureProvider.ts` lines 66-96), applied to the baseline record obtained
from the base class (abstracted as the `baseInfo` argument). -/
def getModelInfo (modelId : List Char) (baseInfo : ModelCapabilities) : ModelCapabilities :=
  if isOSeriesModel modelId then
    { baseInfo with
      supports := { baseInfo.supports with tool_calls := true, vision := supportsVision modelId },
      limits := ⟨300000, 200000, 100000⟩ }
  else if containsB (toLowerB modelId) gpt4oTok || containsB (toLowerB modelId) gpt41Tok then
    { baseInfo with
      supports := { baseInfo.supports with tool_calls := true, vision := true } }
  else baseInfo

/-- URL computed during `AzureBYOKModelRegistry.registerModel`
(`azureProvider.ts` lines 110-111): the surface flag fed to
`resolveAzureUrl` is `shouldUseResponsesAPI`, not `isOSeriesModel`. -/
def registerModelUrl (modelId deploymentUrl : List Char) : AzureResult :=
  resolveAzureUrl modelId deploymentUrl (shouldUseResponsesAPI modelId)

/-- Modelled from the spec: `IChatModelInformation` is a platform interface
that is not part of this slice; it is carried as a record with the
max-prompt-tokens field (`maxInputTokens`) that `cloneWithTokenOverride`
overrides plus representative other fields that the spread must preserve. -/
structure ChatModelInformation where
  id : List Char
  version : List Char
  maxInputTokens : Nat
  maxOutputTokens : Nat
  deriving DecidableEq

/-- Constructor fields of `AzureOpenAIEndpoint` (`azureOpenAIEndpoint.ts`
lines 30-61): model info, API key and resolved model URL. -/
structure AzureOpenAIEndpointState where
  azureModelInfo : ChatModelInformation
  azureApiKey : List Char
  azureModelUrl : List Char
  deriving DecidableEq

/-- `AzureOpenAIEndpoint.cloneWithTokenOverride` (`azureOpenAIEndpoint.ts`
lines 103-106): rebuild the endpoint from the same key and URL with
`maxInputTokens` replaced by the override. -/
def cloneWithTokenOverride (e : AzureOpenAIEndpointState) (n : Nat) : AzureOpenAIEndpointState :=
  { azureModelInfo := { e.azureModelInfo with maxInputTokens := n },
    azureApiKey := e.azureApiKey,
    azureModelUrl := e.azureModelUrl }

/-- Outcome of the delegated base transport call inside `makeChatRequest`:
either a response, or a failure whose optional message models a thrown
value that may or may not carry a `message` property. -/
inductive ChatOutcome (ρ : Type) where
  | success (response : ρ)
  | failure (message : Option (List Char))

def authNeedle : List Char := "auth".data

def authenticationNeedle : List Char := "authentication".data

def azureAuthFailPre : List Char := "Azure OpenAI authentication failed: ".data

def authGuidanceSuffix : List Char := ". Please check your API key configuration.".data

def keyConfigNeedle : List Char := "Please check your API key configuration".data

/-- `AzureOpenAIEndpoint.makeChatRequest` (`azureOpenAIEndpoint.ts` lines
109-146) as a function of the single delegated base-transport outcome: a
success is returned as is; a failure whose message contains `auth` or
`authentication` is re-wrapped with remediation guidance; every other
failure propagates unchanged. -/
def makeChatRequest {ρ : Type} (base : ChatOutcome ρ) : ChatOutcome ρ :=
  match base with
  | .success r => .success r
  | .failure none => .failure none
  | .failure (some m) =>
    if containsB m authNeedle || containsB m authenticationNeedle then
      .failure (some (azureAuthFailPre ++ m ++ authGuidanceSuffix))
    else
      .failure (some m)

/-! Helper lemmas about the embedded string operations. -/

theorem isPrefixOfB_append_self : ∀ p r : List Char, isPrefixOfB p (p ++ r) = true
  | [], _ => rfl
  | a :: as, r => by simp [isPrefixOfB, isPrefixOfB_append_self as r]

theorem isPrefixOfB_refl (p : List Char) : isPrefixOfB p p = true := by
  have h := isPrefixOfB_append_self p []
  simpa using h

theorem containsB_of_isPrefixOfB {s pat : List Char} (h : isPrefixOfB pat s = true) :
    containsB s pat = true := by
  cases s with
  | nil => simpa [containsB] using h
  | cons c cs => simp [containsB, h]

theorem containsB_self (s : List Char) : containsB s s = true :=
  containsB_of_isPrefixOfB (isPrefixOfB_refl s)

theorem containsB_append_left (u : List Char) {v pat : List Char}
    (h : containsB v pat = true) : containsB (u ++ v) pat = true := by
  induction u with
  | nil => simpa using h
  | cons a t ih => simp [containsB, ih]

theorem isPrefixOfB_concat : ∀ (pat s : List Char) (c : Char),
    isPrefixOfB pat (s ++ [c]) = true → isPrefixOfB pat s = true ∨ pat = s ++ [c]
  | [], _, _, _ => Or.inl rfl
  | a :: as, [], c, h => by
    simp only [List.nil_append, isPrefixOfB, Bool.and_eq_true, beq_iff_eq] at h
    obtain ⟨rfl, h2⟩ := h
    cases as with
    | nil => exact Or.inr rfl
    | cons x xs => simp [isPrefixOfB] at h2
  | a :: as, b :: bs, c, h => by
    simp only [List.cons_append, isPrefixOfB, Bool.and_eq_true, beq_iff_eq] at h
    obtain ⟨rfl, h2⟩ := h
    rcases isPrefixOfB_concat as bs c h2 with h3 | h3
    · exact Or.inl (by simp [isPrefixOfB, h3])
    · exact Or.inr (by simp [h3])

theorem containsB_concat : ∀ (u : List Char) (c : Char) (pat : List Char),
    containsB (u ++ [c]) pat = true → containsB u pat = true ∨ pat.getLast? = some c
  | [], c, pat, h => by
    simp only [List.nil_append, containsB, Bool.or_eq_true] at h
    rcases h with h | h
    · rcases isPrefixOfB_concat pat [] c h with h2 | h2
      · exact Or.inl (by simpa [containsB] using h2)
      · subst h2; exact Or.inr rfl
    · exact Or.inl (by simpa [containsB] using h)
  | a :: t, c, pat, h => by
    simp only [List.cons_append, containsB, Bool.or_eq_true] at h
    rcases h with h | h
    · rcases isPrefixOfB_concat pat (a :: t) c (by simpa using h) with h2 | h2
      · exact Or.inl (by simp [containsB, h2])
      · subst h2; exact Or.inr (List.getLast?_concat _)
    · rcases containsB_concat t c pat h with h2 | h2
      · exact Or.inl (by simp [containsB, h2])
      · exact Or.inr h2

theorem containsB_append_single {u pat : List Char} {c : Char}
    (h : containsB u pat = false) (hc : pat.getLast? ≠ some c) :
    containsB (u ++ [c]) pat = false := by
  cases hcc : containsB (u ++ [c]) pat with
  | false => rfl
  | true =>
    rcases containsB_concat u c pat hcc with h2 | h2
    · rw [h] at h2; cases h2
    · exact absurd h2 hc

theorem containsB_append_v1 {u pat : List Char} (h : containsB u pat = false)
    (h1 : pat.getLast? ≠ some '/') (h2 : pat.getLast? ≠ some 'v')
    (h3 : pat.getLast? ≠ some '1') :
    containsB (u ++ v1Suffix) pat = false := by
  have e : u ++ v1Suffix = ((u ++ ['/']) ++ ['v']) ++ ['1'] := by simp [v1Suffix]
  rw [e]
  exact containsB_append_single
    (containsB_append_single (containsB_append_single h h1) h2) h3

theorem endsWithB_append_self (u p : List Char) : endsWithB (u ++ p) p = true := by
  simp only [endsWithB, List.reverse_append]
  exact isPrefixOfB_append_self _ _

theorem dropRightB_append (u p : List Char) : dropRightB (u ++ p) p.length = u := by
  simp only [dropRightB, List.length_append, Nat.add_sub_cancel]
  exact List.take_left' rfl

theorem endsWithB_v1_slash (u : List Char) : endsWithB (u ++ v1Suffix) slashC = false := by
  have e : (u ++ v1Suffix).reverse = '1' :: 'v' :: '/' :: u.reverse := by
    simp [v1Suffix]
  simp [endsWithB, e, slashC, isPrefixOfB]

theorem canonicalBase_id {u : List Char} (hs : endsWithB u slashC = false)
    (hv : endsWithB u v1Suffix = false) : canonicalBase u = u := by
  simp [canonicalBase, hs, hv]

theorem canonicalBase_slash {u : List Char} (hv : endsWithB u v1Suffix = false) :
    canonicalBase (u ++ slashC) = u := by
  have e1 : endsWithB (u ++ slashC) slashC = true := endsWithB_append_self u slashC
  have e2 : dropRightB (u ++ slashC) 1 = u := dropRightB_append u slashC
  simp [canonicalBase, e1, e2, hv]

theorem canonicalBase_v1 (u : List Char) : canonicalBase (u ++ v1Suffix) = u := by
  have e1 : endsWithB (u ++ v1Suffix) slashC = false := endsWithB_v1_slash u
  have e2 : endsWithB (u ++ v1Suffix) v1Suffix = true := endsWithB_append_self u v1Suffix
  have e3 : dropRightB (u ++ v1Suffix) 3 = u := dropRightB_append u v1Suffix
  simp [canonicalBase, e1, e2, e3]

/-! Concrete inputs used by witnesses and counterexamples. -/

def xO1cased : List Char := "O1".data

def xO3MINIcased : List Char := "O3-MINI".data

def xGPT41cased : List Char := "GPT-4.1".data

def xGpt4 : List Char := "gpt-4".data

def xGpt4o : List Char := "gpt-4o".data

def xGpt35turbo : List Char := "gpt-3.5-turbo".data

def xTextDavinci : List Char := "text-davinci-003".data

def mO4 : List Char := "o4".data

def mO3mini : List Char := "o3-mini".data

def uGateway : List Char := "https://x.openai.azure.com".data

def uGatewaySlash : List Char := "https://x.openai.azure.com/".data

def uRawBoth : List Char := "https://models.ai.azure.com.openai.azure.com".data

def uUnknown : List Char := "https://unknown-endpoint.com".data

def expectedLegacyO4 : List Char :=
  "https://x.openai.azure.com/openai/deployments/o4/chat/completions?api-version=2025-04-01-preview".data

def baseCaps : ModelCapabilities := ⟨⟨false, false, true⟩, ⟨8192, 4096, 4096⟩⟩

def lowBase : ModelCapabilities := ⟨⟨false, false, false⟩, ⟨0, 5, 5⟩⟩

def bodyTempTopp : EndpointBody := ⟨some 1, some 2, []⟩

/-- C3: `shouldUseResponsesAPI` is total and pure; it returns true on every
input whose lower-casing is one of the listed reasoning/advanced family
tokens (hence on each token itself and under any letter casing, including
the mixed-case inputs `O3-MINI` and `GPT-4.1`), it returns false on
`gpt-4`, `gpt-4o`, `gpt-3.5-turbo` and `text-davinci-003`, and more
generally it returns false on every model id whose lower-casing contains
none of the listed tokens. -/
theorem C3_shouldUseResponsesAPI_spec :
    (∀ t ∈ responsesAPIModels, ∀ x : List Char, toLowerB x = t →
      shouldUseResponsesAPI x = true) ∧
    shouldUseResponsesAPI xO3MINIcased = true ∧
    shouldUseResponsesAPI xGPT41cased = true ∧
    shouldUseResponsesAPI xGpt4 = false ∧
    shouldUseResponsesAPI xGpt4o = false ∧
    shouldUseResponsesAPI xGpt35turbo = false ∧
    shouldUseResponsesAPI xTextDavinci = false ∧
    (∀ x : List Char, (∀ t ∈ responsesAPIModels, containsB (toLowerB x) t = false) →
      shouldUseResponsesAPI x = false) := by
  refine ⟨?_, by decide, by decide, by decide, by decide, by decide, by decide, ?_⟩
  · intro t ht x hx
    have hc : containsB (toLowerB x) t = true := by
      rw [hx]; exact containsB_self t
    show (responsesAPIModels.any fun model => containsB (toLowerB x) model) = true
    rw [List.any_eq_true]
    exact ⟨t, ht, hc⟩
  · intro x h
    cases hb : shouldUseResponsesAPI x with
    | false => rfl
    | true =>
      rw [shouldUseResponsesAPI, List.any_eq_true] at hb
      obtain ⟨t, ht, hc⟩ := hb
      rw [h t ht] at hc
      cases hc

/-- C3 witness: the first conjunct applied to the token `o1` and the
mixed-case input `O1`. -/
theorem C3_witness : shouldUseResponsesAPI xO1cased = true :=
  C3_shouldUseResponsesAPI_spec.1 o1Tok (by decide) xO1cased (by decide)

/-- C8: `cloneWithTokenOverride` returns a new endpoint state whose model
info has `maxInputTokens` overridden to `n`, while the model id, version,
`maxOutputTokens`, API key and resolved model URL are all equal to the
receiver's; the receiver, a pure value in this embedding, is unchanged. -/
theorem C8_cloneWithTokenOverride_spec (e : AzureOpenAIEndpointState) (n : Nat) :
    (cloneWithTokenOverride e n).azureModelInfo.maxInputTokens = n ∧
    (cloneWithTokenOverride e n).azureModelInfo.id = e.azureModelInfo.id ∧
    (cloneWithTokenOverride e n).azureModelInfo.version = e.azureModelInfo.version ∧
    (cloneWithTokenOverride e n).azureModelInfo.maxOutputTokens =
      e.azureModelInfo.maxOutputTokens ∧
    (cloneWithTokenOverride e n).azureApiKey = e.azureApiKey ∧
    (cloneWithTokenOverride e n).azureModelUrl = e.azureModelUrl :=
  ⟨rfl, rfl, rfl, rfl, rfl, rfl⟩

/-- C9 counterexample: for the non-o-series model id `gpt-4` and a baseline
whose limits already violate the window inequality (0 < 5 + 5), the derived
record violates it as well, so the invariant does not hold for every
baseline record. -/
theorem C9_counterexample :
    ¬ ((getModelInfo xGpt4 lowBase).limits.max_prompt_tokens +
        (getModelInfo xGpt4 lowBase).limits.max_output_tokens ≤
        (getModelInfo xGpt4 lowBase).limits.max_context_window_tokens) := by
  decide

/-- C9 amended: for every baseline record that itself satisfies
`maxContextWindowTokens ≥ maxPromptTokens + maxOutputTokens`, the record
produced by `getModelInfo` satisfies it as well, and for every o-series
model id the derived limits satisfy it with equality, 300000 = 200000 +
100000. -/
theorem C9_limits_invariant_amended (modelId : List Char) (base : ModelCapabilities)
    (h : base.limits.max_prompt_tokens + base.limits.max_output_tokens ≤
      base.limits.max_context_window_tokens) :
    ((getModelInfo modelId base).limits.max_prompt_tokens +
      (getModelInfo modelId base).limits.max_output_tokens ≤
      (getModelInfo modelId base).limits.max_context_window_tokens) ∧
    (isOSeriesModel modelId = true →
      (getModelInfo modelId base).limits.max_context_window_tokens =
        (getModelInfo modelId base).limits.max_prompt_tokens +
          (getModelInfo modelId base).limits.max_output_tokens ∧
      (getModelInfo modelId base).limits.max_context_window_tokens = 300000) := by
  cases ho : isOSeriesModel modelId with
  | true =>
    have hl : (getModelInfo modelId base).limits = ⟨300000, 200000, 100000⟩ := by
      simp [getModelInfo, ho]
    rw [hl]
    exact ⟨by decide, fun _ => ⟨by decide, rfl⟩⟩
  | false =>
    have hl : (getModelInfo modelId base).limits = base.limits := by
      cases hg : (containsB (toLowerB modelId) gpt4oTok || containsB (toLowerB modelId) gpt41Tok) with
      | true => simp [getModelInfo, ho, hg]
      | false => simp [getModelInfo, ho, hg]
    rw [hl]
    exact ⟨h, fun hcontra => Bool.noConfusion hcontra⟩

/-- C9 witness: the amended invariant applied to the o-series model id
`o3-mini` and a concrete well-formed baseline. -/
theorem C9_witness :
    (getModelInfo mO3mini baseCaps).limits.max_context_window_tokens =
      (getModelInfo mO3mini baseCaps).limits.max_prompt_tokens +
        (getModelInfo mO3mini baseCaps).limits.max_output_tokens :=
  ((C9_limits_invariant_amended mO3mini baseCaps (by decide)).2 (by decide)).1

/-- C10: the two reasoning-family tests diverge: `o4` is o-series by the
anchored prefix test but not in the Responses-API token list, while
`gpt-4.1` is the converse; consequently `registerModel` resolves `o4` to
the legacy chat-completions URL even though `getModelInfo` gives it the
o-series limits and `interceptBody` applies the o-series sanitization. -/
theorem C10_predicate_divergence :
    isOSeriesModel mO4 = true ∧
    shouldUseResponsesAPI mO4 = false ∧
    isOSeriesModel xGPT41cased = false ∧
    shouldUseResponsesAPI xGPT41cased = true ∧
    registerModelUrl mO4 uGateway = .ok expectedLegacyO4 ∧
    (getModelInfo mO4 baseCaps).limits = ⟨300000, 200000, 100000⟩ ∧
    azureInterceptBody mO4 (some bodyTempTopp) = some ⟨none, none, []⟩ := by
  decide

/-- C4: for every o-series model id, the Azure body interception removes a
present `temperature` field unconditionally, removes `top_p` exactly when
it is present with a value other than 1 (a present `top_p = 1` is left
untouched), preserves every other field, and never fails; for every
non-o-series model id the body is left entirely unchanged beyond the base
interception; an absent body is a no-op. -/
theorem C4_interceptBody_spec :
    (∀ (model : List Char) (b : EndpointBody), isOSeriesModel model = true →
      azureInterceptBody model (some b) =
        some { b with temperature := none,
                      top_p := if b.top_p = some 1 then some 1 else none }) ∧
    (∀ (model : List Char) (b : EndpointBody), isOSeriesModel model = false →
      azureInterceptBody model (some b) = some b) ∧
    (∀ model : List Char, azureInterceptBody model none = none) := by
  refine ⟨?_, ?_, fun model => rfl⟩
  · intro model b ho
    obtain ⟨t, p, rest⟩ := b
    cases p with
    | none => cases t <;> simp [azureInterceptBody, ho]
    | some pv =>
      by_cases hp : pv = 1
      · subst hp
        cases t <;> simp [azureInterceptBody, ho]
      · cases t <;> simp [azureInterceptBody, ho, hp]
  · intro model b ho
    simp [azureInterceptBody, ho]

/-- C4 witness: for `o3-mini` a body carrying `temperature = 1` and
`top_p = 2` loses both fields. -/
theorem C4_witness :
    azureInterceptBody mO3mini (some bodyTempTopp) =
      some { bodyTempTopp with
             temperature := none,
             top_p := if bodyTempTopp.top_p = some 1 then some 1 else none } :=
  C4_interceptBody_spec.1 mO3mini bodyTempTopp (by decide)

/-- C5: for every o-series model id and every baseline record,
`getModelInfo` sets `tool_calls` to true, sets `vision` to true exactly
when the lower-cased model id contains a member of the fixed vision list,
and overrides the three window fields to 300000/200000/100000 discarding
the baseline's values; in particular the derived context window for
`o3-mini` equals 200000 + 100000. -/
theorem C5_getModelInfo_oseries :
    (∀ (modelId : List Char) (base : ModelCapabilities), isOSeriesModel modelId = true →
      (getModelInfo modelId base).supports.tool_calls = true ∧
      ((getModelInfo modelId base).supports.vision = true ↔
        ∃ t ∈ visionModels, containsB (toLowerB modelId) t = true) ∧
      (getModelInfo modelId base).limits = ⟨300000, 200000, 100000⟩) ∧
    (∀ base : ModelCapabilities,
      (getModelInfo mO3mini base).limits.max_context_window_tokens = 200000 + 100000) := by
  constructor
  · intro modelId base ho
    refine ⟨by simp [getModelInfo, ho], ?_, by simp [getModelInfo, ho]⟩
    have hv : (getModelInfo modelId base).supports.vision = supportsVision modelId := by
      simp [getModelInfo, ho]
    rw [hv]
    simp only [supportsVision]
    exact List.any_eq_true
  · intro base
    have ho : isOSeriesModel mO3mini = true := by decide
    have hl : (getModelInfo mO3mini base).limits = ⟨300000, 200000, 100000⟩ := by
      simp [getModelInfo, ho]
    rw [hl]

/-- C5 witness: the first conjunct applied to `o3-mini` and a concrete
baseline. -/
theorem C5_witness :
    (getModelInfo mO3mini baseCaps).limits = ⟨300000, 200000, 100000⟩ :=
  ((C5_getModelInfo_oseries.1 mO3mini baseCaps (by decide)).2).2

def xAuthMsg : List Char := "authentication failed".data

/-- C7: `makeChatRequest` returns the delegated base outcome unchanged on
success; a failure whose message contains `auth` or `authentication` is
replaced by a new error whose message contains the original message and
the remediation guidance to check the API key configuration; every other
failure (message without those substrings, or a thrown value with no
message) propagates unchanged.  The embedding consumes exactly one base
outcome, so the request is not retried. -/
theorem C7_makeChatRequest_spec :
    (∀ (ρ : Type) (r : ρ), makeChatRequest (ChatOutcome.success r) = ChatOutcome.success r) ∧
    (∀ m : List Char,
      (containsB m authNeedle || containsB m authenticationNeedle) = true →
      ∀ ρ : Type,
        @makeChatRequest ρ (ChatOutcome.failure (some m)) =
          ChatOutcome.failure (some (azureAuthFailPre ++ m ++ authGuidanceSuffix)) ∧
        containsB (azureAuthFailPre ++ m ++ authGuidanceSuffix) m = true ∧
        containsB (azureAuthFailPre ++ m ++ authGuidanceSuffix) keyConfigNeedle = true) ∧
    (∀ m : List Char,
      (containsB m authNeedle || containsB m authenticationNeedle) = false →
      ∀ ρ : Type,
        @makeChatRequest ρ (ChatOutcome.failure (some m)) = ChatOutcome.failure (some m)) ∧
    (∀ ρ : Type, @makeChatRequest ρ (ChatOutcome.failure none) = ChatOutcome.failure none) := by
  refine ⟨fun ρ r => rfl, ?_, ?_, fun ρ => rfl⟩
  · intro m hm ρ
    refine ⟨by simp [makeChatRequest, hm], ?_, ?_⟩
    · exact containsB_append_left azureAuthFailPre
        (containsB_of_isPrefixOfB (isPrefixOfB_append_self m authGuidanceSuffix))
    · exact containsB_append_left azureAuthFailPre
        (containsB_append_left m (by decide))
  · intro m hm ρ
    simp [makeChatRequest, hm]

/-- C7 witness: the auth-classification conjunct applied to the concrete
failure message `authentication failed`. -/
theorem C7_witness :
    @makeChatRequest Nat (ChatOutcome.failure (some xAuthMsg)) =
      ChatOutcome.failure (some (azureAuthFailPre ++ xAuthMsg ++ authGuidanceSuffix)) :=
  (C7_makeChatRequest_spec.2.1 xAuthMsg (by decide) Nat).1

def expectedLegacyGpt4 : List Char :=
  "https://x.openai.azure.com/openai/deployments/gpt-4/chat/completions?api-version=2025-04-01-preview".data

/-- C1 counterexample: the claim's parenthetical "u, u + '/' and u + '/v1'
all resolve to the same result" fails for a URL that already ends with a
slash: `https://x.openai.azure.com/` and `https://x.openai.azure.com//`
resolve differently.  Moreover the gateway cases read unordered are
contradicted by a host containing both a raw-inference marker and the
gateway marker: classification is ordered and the raw-inference branch
wins. -/
theorem C1_counterexample :
    (containsB uGatewaySlash chatCompletionsMarker = false ∧
     containsB uGatewaySlash responsesMarker = false ∧
     resolveAzureUrl xGpt4 (uGatewaySlash ++ slashC) false ≠
       resolveAzureUrl xGpt4 uGatewaySlash false) ∧
    (containsB uRawBoth chatCompletionsMarker = false ∧
     containsB uRawBoth responsesMarker = false ∧
     containsB (canonicalBase uRawBoth) modelsAiMarker = true ∧
     containsB (canonicalBase uRawBoth) openaiAzureMarker = true ∧
     resolveAzureUrl xGpt4 uRawBoth true = .ok (canonicalBase uRawBoth ++ v1ResponsesPath) ∧
     canonicalBase uRawBoth ++ v1ResponsesPath ≠
       canonicalBase uRawBoth ++ openaiV1ResponsesPath ++ apiVersionQuery) := by
  decide

/-- C1 amended: for every model id, surface flag and URL containing neither
`/chat/completions` nor `/responses`, `resolveAzureUrl` returns exactly the
four claimed outputs over the canonical base (one trailing slash stripped,
then a trailing `/v1`), with the host classification ordered as in the
code (raw-inference markers checked before the gateway marker); and when
`u` itself ends with neither `/` nor `/v1`, the inputs `u`, `u + '/'` and
`u + '/v1'` all resolve to the same result. -/
theorem C1_resolve_normalization (m u : List Char) (f : Bool)
    (hcc : containsB u chatCompletionsMarker = false)
    (hrsp : containsB u responsesMarker = false) :
    ((containsB (canonicalBase u) modelsAiMarker ||
        containsB (canonicalBase u) inferenceMlMarker) = true →
      (f = true → resolveAzureUrl m u f = .ok (canonicalBase u ++ v1ResponsesPath)) ∧
      (f = false → resolveAzureUrl m u f = .ok (canonicalBase u ++ v1ChatCompletionsPath))) ∧
    ((containsB (canonicalBase u) modelsAiMarker ||
        containsB (canonicalBase u) inferenceMlMarker) = false →
      containsB (canonicalBase u) openaiAzureMarker = true →
      (f = true → resolveAzureUrl m u f =
        .ok (canonicalBase u ++ openaiV1ResponsesPath ++ apiVersionQuery)) ∧
      (f = false → resolveAzureUrl m u f =
        .ok (canonicalBase u ++ openaiDeploymentsPath ++ m ++ chatCompletionsMarker ++
          apiVersionQuery))) ∧
    (endsWithB u slashC = false → endsWithB u v1Suffix = false →
      resolveAzureUrl m (u ++ slashC) f = resolveAzureUrl m u f ∧
      resolveAzureUrl m (u ++ v1Suffix) f = resolveAzureUrl m u f) := by
  refine ⟨?_, ?_, ?_⟩
  · intro hraw
    constructor <;> intro hf <;> subst hf <;>
      simp [resolveAzureUrl, hcc, hrsp, classifyBase, hraw]
  · intro hnraw hgw
    have h1 : containsB (canonicalBase u) modelsAiMarker = false := by
      cases hx : containsB (canonicalBase u) modelsAiMarker with
      | false => rfl
      | true => rw [hx] at hnraw; simp at hnraw
    have h2 : containsB (canonicalBase u) inferenceMlMarker = false := by
      cases hx : containsB (canonicalBase u) inferenceMlMarker with
      | false => rfl
      | true => rw [hx] at hnraw; simp at hnraw
    constructor <;> intro hf <;> subst hf <;>
      simp [resolveAzureUrl, hcc, hrsp, classifyBase, h1, h2, hgw]
  · intro hs hv
    have h1 : canonicalBase u = u := canonicalBase_id hs hv
    have h2 : canonicalBase (u ++ slashC) = u := canonicalBase_slash hv
    have h3 : canonicalBase (u ++ v1Suffix) = u := canonicalBase_v1 u
    have hcc1 : containsB (u ++ slashC) chatCompletionsMarker = false :=
      containsB_append_single hcc (by decide)
    have hrsp1 : containsB (u ++ slashC) responsesMarker = false :=
      containsB_append_single hrsp (by decide)
    have hcc2 : containsB (u ++ v1Suffix) chatCompletionsMarker = false :=
      containsB_append_v1 hcc (by decide) (by decide) (by decide)
    have hrsp2 : containsB (u ++ v1Suffix) responsesMarker = false :=
      containsB_append_v1 hrsp (by decide) (by decide) (by decide)
    have hr : resolveAzureUrl m u f = classifyBase m u f := by
      simp [resolveAzureUrl, hcc, hrsp, h1]
    constructor
    · have hl : resolveAzureUrl m (u ++ slashC) f = classifyBase m u f := by
        simp [resolveAzureUrl, hcc1, hrsp1, h2]
      rw [hl, hr]
    · have hl : resolveAzureUrl m (u ++ v1Suffix) f = classifyBase m u f := by
        simp [resolveAzureUrl, hcc2, hrsp2, h3]
      rw [hl, hr]

/-- C1 witness: the gateway legacy case at the spec's test vector
`resolveAzureUrl('gpt-4', 'https://x.openai.azure.com', false)`. -/
theorem C1_witness :
    resolveAzureUrl xGpt4 uGateway false = .ok expectedLegacyGpt4 := by
  have h :=
    ((C1_resolve_normalization xGpt4 uGateway false (by decide) (by decide)).2.1
      (by decide) (by decide)).2 rfl
  exact h.trans (by decide)

/-- Every successful result of `resolveAzureUrl` contains one of the two
request-path markers, so the already-resolved guard fires on it. -/
theorem resolve_ok_contains {m u : List Char} {f : Bool} {r : List Char}
    (h : resolveAzureUrl m u f = .ok r) :
    (containsB r chatCompletionsMarker || containsB r responsesMarker) = true := by
  unfold resolveAzureUrl at h
  by_cases hg : (containsB u chatCompletionsMarker || containsB u responsesMarker) = true
  · rw [if_pos hg] at h
    injection h with h
    subst h
    exact hg
  · rw [if_neg hg] at h
    unfold classifyBase at h
    by_cases h1 : (containsB (canonicalBase u) modelsAiMarker ||
        containsB (canonicalBase u) inferenceMlMarker) = true
    · rw [if_pos h1] at h
      cases f with
      | true =>
        injection h with h
        subst h
        have hc : containsB v1ResponsesPath responsesMarker = true := by decide
        simp [containsB_append_left (canonicalBase u) hc]
      | false =>
        injection h with h
        subst h
        have hc : containsB v1ChatCompletionsPath chatCompletionsMarker = true := by decide
        simp [containsB_append_left (canonicalBase u) hc]
    · rw [if_neg h1] at h
      by_cases h2 : containsB (canonicalBase u) openaiAzureMarker = true
      · rw [if_pos h2] at h
        cases f with
        | true =>
          injection h with h
          subst h
          have hc : containsB (openaiV1ResponsesPath ++ apiVersionQuery) responsesMarker = true := by
            decide
          simp [containsB_append_left (canonicalBase u) hc]
        | false =>
          injection h with h
          subst h
          have hc : containsB (chatCompletionsMarker ++ apiVersionQuery)
              chatCompletionsMarker = true := by decide
          have hc2 := containsB_append_left (canonicalBase u)
            (containsB_append_left openaiDeploymentsPath (containsB_append_left m hc))
          simp [hc2]
      · rw [if_neg h2] at h
        exact AzureResult.noConfusion h

/-- C2: `resolveAzureUrl` is idempotent: whenever it succeeds, re-resolving
its own output returns that output unchanged; in particular every URL that
already contains `/chat/completions` or `/responses` is returned unchanged
for any model id and surface flag. -/
theorem C2_resolve_idempotent :
    (∀ (m u : List Char) (f : Bool) (r : List Char),
      resolveAzureUrl m u f = .ok r → resolveAzureUrl m r f = .ok r) ∧
    (∀ (m u : List Char) (f : Bool),
      (containsB u chatCompletionsMarker || containsB u responsesMarker) = true →
      resolveAzureUrl m u f = .ok u) := by
  constructor
  · intro m u f r h
    have hc := resolve_ok_contains h
    simp [resolveAzureUrl, hc]
  · intro m u f h
    simp [resolveAzureUrl, h]

/-- C2 witness: idempotence at the resolved gateway URL for `gpt-4`. -/
theorem C2_witness :
    resolveAzureUrl xGpt4 expectedLegacyGpt4 false = .ok expectedLegacyGpt4 :=
  C2_resolve_idempotent.1 xGpt4 uGateway false expectedLegacyGpt4 (by decide)

/-- C6: on URLs containing neither request-path marker, `resolveAzureUrl`
fails exactly when the trimmed URL contains none of the three recognized
host markers; the error message is the fixed prefix followed by the
(possibly already-trimmed) URL, so it includes that URL; and there is no
other failure path. -/
theorem C6_resolve_error_spec :
    (∀ (m u : List Char) (f : Bool) (msg : List Char),
      resolveAzureUrl m u f = .err msg →
      containsB u chatCompletionsMarker = false ∧
      containsB u responsesMarker = false ∧
      containsB (canonicalBase u) modelsAiMarker = false ∧
      containsB (canonicalBase u) inferenceMlMarker = false ∧
      containsB (canonicalBase u) openaiAzureMarker = false ∧
      msg = unrecognizedUrlMsg ++ canonicalBase u ∧
      containsB msg (canonicalBase u) = true) ∧
    (∀ (m u : List Char) (f : Bool),
      containsB u chatCompletionsMarker = false →
      containsB u responsesMarker = false →
      containsB (canonicalBase u) modelsAiMarker = false →
      containsB (canonicalBase u) inferenceMlMarker = false →
      containsB (canonicalBase u) openaiAzureMarker = false →
      resolveAzureUrl m u f = .err (unrecognizedUrlMsg ++ canonicalBase u)) := by
  constructor
  · intro m u f msg h
    unfold resolveAzureUrl at h
    cases hcc : containsB u chatCompletionsMarker with
    | true => simp [hcc] at h
    | false =>
      cases hrsp : containsB u responsesMarker with
      | true => simp [hcc, hrsp] at h
      | false =>
        simp only [hcc, hrsp, Bool.or_self, Bool.false_eq_true, if_false] at h
        unfold classifyBase at h
        cases h1 : containsB (canonicalBase u) modelsAiMarker with
        | true => cases f <;> simp [h1] at h
        | false =>
          cases h2 : containsB (canonicalBase u) inferenceMlMarker with
          | true => cases f <;> simp [h1, h2] at h
          | false =>
            cases h3 : containsB (canonicalBase u) openaiAzureMarker with
            | true => cases f <;> simp [h1, h2, h3] at h
            | false =>
              simp only [h1, h2, h3, Bool.or_self, Bool.false_eq_true, if_false,
                AzureResult.err.injEq] at h
              refine ⟨rfl, rfl, rfl, rfl, rfl, h.symm, ?_⟩
              rw [← h]
              exact containsB_append_left unrecognizedUrlMsg (containsB_self (canonicalBase u))
  · intro m u f hcc hrsp h1 h2 h3
    simp [resolveAzureUrl, classifyBase, hcc, hrsp, h1, h2, h3]

/-- C6 witness: the unrecognized-host failure at
`resolveAzureUrl('gpt-4', 'https://unknown-endpoint.com')`. -/
theorem C6_witness :
    resolveAzureUrl xGpt4 uUnknown false = .err (unrecognizedUrlMsg ++ canonicalBase uUnknown) :=
  C6_resolve_error_spec.2 xGpt4 uUnknown false (by decide) (by decide) (by decide)
    (by decide) (by decide)

end Azure
